import Mathlib

/-!
Shallow embedding of the conversational energy-query pipeline of the
Smart-Home-Energy-Monitoring repository.

Python strings are modelled as `List Char` (`PyStr`).  Machine floats
(`energy_watts`, SQL aggregates) are modelled as rationals `ℚ`; SQL query
evaluation is modelled as a deterministic scan of the stored rows in
primary-key (creation) order, with a stable sort for `ORDER BY`.  The two
NLM calls, the `uuid4` generator, `json.loads`, and Python's float
formatting are external collaborators: they enter the embedding as opaque
parameters collected in the `Env` record, so every theorem quantifying
over `Env` holds for every behaviour of those collaborators.  Fallible
Python code (`raise` / `except`) is modelled with `Except Unit`.
-/

namespace SmartHomeEnergy

/-- Python strings as lists of characters. -/
abbrev PyStr := List Char

/-- Characters treated as whitespace by Python's `str.strip()`. -/
def isPySpace (c : Char) : Bool :=
  c = ' ' || c = '\t' || c = '\n' || c = '\r' || c = '\x0b' || c = '\x0c'

/-- Python `str.strip()`: drop whitespace from both ends. -/
def pyStrip (s : PyStr) : PyStr :=
  ((s.dropWhile isPySpace).reverse.dropWhile isPySpace).reverse

/-- Python `s.endswith(suf)`. -/
def pyEndsWith (suf s : PyStr) : Bool :=
  suf.reverse.isPrefixOf s.reverse

/-- Python slice `s[:-n]` (drop the last `n` characters). -/
def pyDropRight (s : PyStr) (n : Nat) : PyStr :=
  (s.reverse.drop n).reverse

/-- Python `str.upper()` followed by `.replace(' ', '_')` is built from these. -/
def pyUpper (s : PyStr) : PyStr := s.map Char.toUpper

/-- Python `.replace(' ', '_')`. -/
def pyUnderscore (s : PyStr) : PyStr :=
  s.map (fun c => if c = ' ' then '_' else c)

/-- Python `str.lower()` (used for case-insensitive device-name match). -/
def pyLower (s : PyStr) : PyStr := s.map Char.toLower

/-- Python `str(n)` for an integer. -/
def intToPyStr (n : Int) : PyStr := (toString n).toList

/-- ORM row of the `devices` table (`app/models/device.py`).  `id` is the
integer primary key; the `devices` list of a `DB` is kept in primary-key,
i.e. creation, order. -/
structure Device where
  id : Nat
  device_id : PyStr
  name : PyStr
  device_type : PyStr
  user_id : Nat
  is_active : Bool
deriving DecidableEq, Repr

/-- ORM row of the `telemetry` table (`app/models/telemetry.py`).
`timestamp` is a UTC instant in (rational) seconds since the epoch. -/
structure Telemetry where
  id : Nat
  device_id : Nat
  timestamp : ℚ
  energy_watts : ℚ
deriving DecidableEq, Repr

/-- The relational store, rows in primary-key (creation) order. -/
structure DB where
  devices : List Device
  telemetry : List Telemetry
deriving Repr

/-- Python values appearing in answer payloads (`data`) and in the dicts
returned by the telemetry service. -/
inductive PyVal where
  | int (n : Int)
  | num (q : ℚ)
  | str (s : PyStr)
  | bool (b : Bool)
  | list (l : List PyVal)
  | dict (d : List (PyStr × PyVal))

/-- Python `dict[k]` lookup on an association list (a `KeyError` is a
`none` result). -/
def dictGet (d : List (PyStr × PyVal)) (k : PyStr) : Option PyVal :=
  (d.find? (fun p => p.1 == k)).map (·.2)

/-- One JSON field of the extractor's output: absent from the object,
explicit `null`, or a value. -/
inductive JsonField (α : Type) where
  | absent
  | null
  | val (a : α)
deriving DecidableEq, Repr

/-- Python `dict.get(k, dflt)`: an absent key yields the default, an
explicit `null` yields Python `None`, a value yields itself. -/
def pyGet {α : Type} (f : JsonField α) (dflt : Option α) : Option α :=
  match f with
  | .absent => dflt
  | .null => none
  | .val a => some a

/-- The extracted parameter record (the prompt of `parse_energy_query`
also mentions `device_type`, `start_time`, `end_time`, `comparison` and
`aggregation`, but no handler ever reads those keys, so they are not
modelled).  The all-`absent` record is the empty parameter record. -/
structure ParsedQuery where
  device_name : JsonField PyStr := .absent
  time_period : JsonField PyStr := .absent
  limit : JsonField Int := .absent
deriving DecidableEq, Repr

/-- The closed intent set of `chat_service.QueryIntent`. -/
inductive QueryIntent where
  | ENERGY_USAGE
  | DEVICE_COMPARISON
  | TOP_CONSUMERS
  | ENERGY_SUMMARY
  | DEVICE_LIST
  | GREETING
  | THANKS
  | GOODBYE
  | OFF_TOPIC
deriving DecidableEq, Repr

/-- Python's `QueryIntent[name]` enum lookup (a `KeyError` is `none`). -/
def intentOfName (s : PyStr) : Option QueryIntent :=
  if s = "ENERGY_USAGE".toList then some .ENERGY_USAGE
  else if s = "DEVICE_COMPARISON".toList then some .DEVICE_COMPARISON
  else if s = "TOP_CONSUMERS".toList then some .TOP_CONSUMERS
  else if s = "ENERGY_SUMMARY".toList then some .ENERGY_SUMMARY
  else if s = "DEVICE_LIST".toList then some .DEVICE_LIST
  else if s = "GREETING".toList then some .GREETING
  else if s = "THANKS".toList then some .THANKS
  else if s = "GOODBYE".toList then some .GOODBYE
  else if s = "OFF_TOPIC".toList then some .OFF_TOPIC
  else none

/-- Normalisation applied to the classifier's raw response:
`response.content.strip().upper()` then `.replace(' ', '_')`. -/
def normalizeIntentResponse (s : PyStr) : PyStr :=
  pyUnderscore (pyUpper (pyStrip s))

/-- External collaborators of the pipeline, passed in as opaque data:
the raw classifier and extractor NLM responses (`none` models the call
raising), the `json.loads` behaviour, the `uuid4` result, the instant
returned by `datetime.utcnow()`, and Python's `"{:.1f}".format` float
formatting. -/
structure Env where
  classifierResp : Option PyStr
  extractorResp : Option PyStr
  jsonLoads : PyStr → Option ParsedQuery
  freshChatId : PyStr
  now : ℚ
  fmt1 : ℚ → PyStr

/-- Embeds `chat_service.classify_intent`: normalise the raw response and
look it up in the closed intent set; an unknown name, or the call raising
(`resp = none`), yields `OFF_TOPIC`. -/
def classify_intent (resp : Option PyStr) : QueryIntent :=
  match resp with
  | none => .OFF_TOPIC
  | some content =>
      (intentOfName (normalizeIntentResponse content)).getD .OFF_TOPIC

/-- Leading code-fence marker stripped by `parse_energy_query`. -/
def fenceOpen : PyStr := "```json".toList

/-- Trailing code-fence marker stripped by `parse_energy_query`. -/
def fenceClose : PyStr := "```".toList

/-- The string surgery of `parse_energy_query` before `json.loads`:
strip, drop a leading `"```json"` (7 characters), drop a trailing
`"```"` (3 characters), strip again. -/
def stripFences (raw : PyStr) : PyStr :=
  let c := pyStrip raw
  let c := if fenceOpen.isPrefixOf c then c.drop 7 else c
  let c := if pyEndsWith fenceClose c then pyDropRight c 3 else c
  pyStrip c

/-- Embeds `chat_service.parse_energy_query`: `resp = none` models the
NLM call raising; an empty (post-surgery) response or a `json.loads`
failure yields the empty parameter record. -/
def parse_energy_query (jsonLoads : PyStr → Option ParsedQuery)
    (resp : Option PyStr) : ParsedQuery :=
  match resp with
  | none => {}
  | some raw =>
      let content := stripFences raw
      if content = [] then {}
      else
        match jsonLoads content with
        | some p => p
        | none => {}

/-- Start of the UTC day containing instant `t`:
`dt.replace(hour=0, minute=0, second=0, microsecond=0)` for a UTC
datetime modelled as seconds since the epoch. -/
def midnightOf (t : ℚ) : ℚ := ((⌊t / 86400⌋ : ℤ) : ℚ) * 86400

/-- Embeds `chat_service.get_time_range`.  The argument is the Python
value of `time_period` (possibly `None`); the result is the
`(start_time, end_time)` pair, `none` meaning "no filter". -/
def get_time_range (now : ℚ) (time_period : Option PyStr) :
    Option ℚ × Option ℚ :=
  if time_period = some "today".toList then
    (some (midnightOf now), some now)
  else if time_period = some "yesterday".toList then
    let start := midnightOf (now - 86400)
    (some start, some (start + 86399))
  else if time_period = some "last_week".toList then
    (some (midnightOf (now - 7 * 86400)), some now)
  else if time_period = some "last_month".toList then
    (some (midnightOf (now - 30 * 86400)), some now)
  else
    (none, none)

/-- Stable descending insertion used to model `ORDER BY key DESC`:
`a` is placed before the first element whose key is `≤ key a`, so that
among equal keys the scan (creation) order is preserved. -/
def insertDescBy {α : Type} (key : α → ℚ) (a : α) : List α → List α
  | [] => [a]
  | b :: l => if key b ≤ key a then a :: b :: l else b :: insertDescBy key a l

/-- Stable sort modelling `ORDER BY key DESC` over rows scanned in
creation order. -/
def sortDescBy {α : Type} (key : α → ℚ) : List α → List α
  | [] => []
  | a :: l => insertDescBy key a (sortDescBy key l)

/-- SQL `LIMIT` as issued by SQLAlchemy's `.limit(n)`: `None` and a
negative value mean "no bound". -/
def pyLimit {α : Type} (n : Option Int) (l : List α) : List α :=
  match n with
  | none => l
  | some k => if k < 0 then l else l.take k.toNat

/-- Reading-in-window test for the `timestamp >= start` / `timestamp <= end`
filters (absent bound means no filter). -/
def inWindow (s e : Option ℚ) (t : Telemetry) : Bool :=
  (match s with
   | some a => decide (a ≤ t.timestamp)
   | none => true) &&
  (match e with
   | some b => decide (t.timestamp ≤ b)
   | none => true)

/-- SQL `AVG(energy_watts)` with the service's `float(x or 0)` coercion:
the average of the list, `0` when it is empty (in `ℚ`, `x / 0 = 0`). -/
def sqlAvg (l : List Telemetry) : ℚ :=
  (l.map (·.energy_watts)).sum / l.length

/-- SQL `MAX(energy_watts)` with the service's `float(x or 0)` coercion. -/
def sqlMax (l : List Telemetry) : ℚ :=
  match l.map (·.energy_watts) with
  | [] => 0
  | x :: xs => xs.foldl max x

/-- SQL `MIN(energy_watts)` with the service's `float(x or 0)` coercion. -/
def sqlMin (l : List Telemetry) : ℚ :=
  match l.map (·.energy_watts) with
  | [] => 0
  | x :: xs => xs.foldl min x

/-- Embeds `DeviceService.get_user_devices`:
`db.query(Device).filter(Device.user_id == user_id).all()`. -/
def get_user_devices (db : DB) (user_id : Nat) : List Device :=
  db.devices.filter (fun d => d.user_id == user_id)

/-- Embeds `TelemetryService.get_telemetry_by_device`: find the device by
external id with an ownership filter (a miss raises `HTTPException`,
modelled as `.error ()`), then return its readings in the window, newest
first, capped at `limit`. -/
def get_telemetry_by_device (db : DB) (device_id : PyStr) (user_id : Nat)
    (start_time end_time : Option ℚ) (limit : Nat) :
    Except Unit (List Telemetry) :=
  match db.devices.find? (fun d =>
      d.device_id == device_id && d.user_id == user_id) with
  | none => .error ()
  | some device =>
      .ok ((sortDescBy (·.timestamp)
        (db.telemetry.filter (fun t =>
          t.device_id == device.id && inWindow start_time end_time t))).take limit)

/-- The readings aggregated by the all-devices branch of
`get_energy_summary`: readings of any of the user's devices, restricted
to the window. -/
def energy_summary_readings (db : DB) (user_id : Nat)
    (start_time end_time : Option ℚ) : List Telemetry :=
  let ids := (get_user_devices db user_id).map (·.id)
  db.telemetry.filter (fun t =>
    ids.contains t.device_id && inWindow start_time end_time t)

/-- The dict built by `get_energy_summary` from the aggregate row. -/
def summaryDict (q : List Telemetry) (device_id : Option PyStr) :
    List (PyStr × PyVal) :=
  [("reading_count".toList, .int q.length),
   ("average_power_watts".toList, .num (sqlAvg q)),
   ("max_power_watts".toList, .num (sqlMax q)),
   ("min_power_watts".toList, .num (sqlMin q)),
   ("device_id".toList,
     match device_id with
     | some d => .str d
     | none => .str "all_devices".toList)]

/-- The dict returned by `get_energy_summary` when the user owns no
devices; its keys are disjoint from the ones the chat handlers read. -/
def noDevicesSummary : List (PyStr × PyVal) :=
  [("total_energy".toList, .num 0),
   ("average_power".toList, .num 0),
   ("device_count".toList, .int 0)]

/-- Embeds `TelemetryService.get_energy_summary`.  With a `device_id` the
ownership-filtered lookup can raise (`.error ()`); without one a user
with no devices gets the early-return dict `noDevicesSummary`. -/
def get_energy_summary (db : DB) (user_id : Nat) (device_id : Option PyStr)
    (start_time end_time : Option ℚ) :
    Except Unit (List (PyStr × PyVal)) :=
  match device_id with
  | some did =>
      match db.devices.find? (fun d =>
          d.device_id == did && d.user_id == user_id) with
      | none => .error ()
      | some device =>
          .ok (summaryDict
            (db.telemetry.filter (fun t =>
              t.device_id == device.id && inWindow start_time end_time t))
            (some did))
  | none =>
      if (get_user_devices db user_id).isEmpty then
        .ok noDevicesSummary
      else
        .ok (summaryDict (energy_summary_readings db user_id start_time end_time)
          none)

/-- The `JOIN` + `GROUP BY` of `get_top_consuming_devices`: each of the
user's devices (in creation order) paired with its readings in the
window; devices without readings in the window drop out of the inner
join. -/
def deviceGroups (db : DB) (user_id : Nat)
    (start_time end_time : Option ℚ) : List (Device × List Telemetry) :=
  ((get_user_devices db user_id).map (fun d =>
      (d, db.telemetry.filter (fun t =>
        t.device_id == d.id && inWindow start_time end_time t)))).filter
    (fun p => !p.2.isEmpty)

/-- The groups of `get_top_consuming_devices` after
`ORDER BY AVG(energy_watts) DESC` (stable over creation order). -/
def rankedGroups (db : DB) (user_id : Nat)
    (start_time end_time : Option ℚ) : List (Device × List Telemetry) :=
  sortDescBy (fun p => sqlAvg p.2) (deviceGroups db user_id start_time end_time)

/-- One entry of the list returned by `get_top_consuming_devices`. -/
structure TopConsumerEntry where
  device_id : PyStr
  name : PyStr
  type : PyStr
  average_power_watts : ℚ
deriving DecidableEq, Repr

/-- Embeds `TelemetryService.get_top_consuming_devices`: the ranked
groups, truncated by `LIMIT`, projected to the result dicts. -/
def get_top_consuming_devices (db : DB) (user_id : Nat) (limit : Option Int)
    (start_time end_time : Option ℚ) : List TopConsumerEntry :=
  (pyLimit limit (rankedGroups db user_id start_time end_time)).map
    (fun p => ⟨p.1.device_id, p.1.name, p.1.device_type, sqlAvg p.2⟩)

/-- Fixed template of `generate_small_talk_response` for `GREETING`. -/
def greetingText : PyStr :=
  ("Hello! I\x27m your smart home energy assistant. I can help you monitor " ++
   "your energy usage, compare devices, and find ways to save energy. What " ++
   "would you like to know about your energy consumption?").toList

/-- Fixed template of `generate_small_talk_response` for `THANKS`. -/
def thanksText : PyStr :=
  ("You\x27re welcome! Feel free to ask me anything about your energy " ++
   "usage anytime.").toList

/-- Fixed template of `generate_small_talk_response` for `GOODBYE`. -/
def goodbyeText : PyStr :=
  "Goodbye! Have a great day and remember to monitor your energy usage!".toList

/-- Fixed template of `generate_small_talk_response` for `OFF_TOPIC`
(the `else` branch). -/
def offTopicText : PyStr :=
  ("I\x27m here to help you with energy monitoring questions. You can ask " ++
   "me about device energy usage, comparisons, or energy summaries.").toList

/-- Embeds `generate_error_response`'s fixed answer. -/
def errorText : PyStr :=
  ("Sorry, I encountered an error while processing your request. Please " ++
   "try again or rephrase your question.").toList

/-- Embeds `generate_fallback_response`'s fixed answer. -/
def fallbackText : PyStr :=
  ("I\x27m not sure I understood your question. I can help you with:\n" ++
   "• Energy usage for specific devices\n" ++
   "• Comparing energy consumption between devices\n" ++
   "• Finding your highest energy consuming devices\n" ++
   "• Energy usage summaries\n" ++
   "• Listing your devices").toList

/-- The conversational (small-talk) intent set. -/
def smallTalkSet : List QueryIntent :=
  [.GREETING, .THANKS, .GOODBYE, .OFF_TOPIC]

/-- The analytical intents for which `parse_query_node` runs the
parameter extractor. -/
def energyIntentSet : List QueryIntent :=
  [.ENERGY_USAGE, .DEVICE_COMPARISON, .TOP_CONSUMERS, .ENERGY_SUMMARY]

/-- Embeds `generate_small_talk_response` (intent is one of
`smallTalkSet` when this is reached; the `else` branch covers the rest). -/
def generate_small_talk_response (intent : QueryIntent) : PyStr :=
  match intent with
  | .GREETING => greetingText
  | .THANKS => thanksText
  | .GOODBYE => goodbyeText
  | _ => offTopicText

/-- Python `f"{x}"` on the `time_period` value (which may be `None`). -/
def showTimePeriod (tp : Option PyStr) : PyStr :=
  match tp with
  | some s => s
  | none => "None".toList

/-- Python `", ".join(names)`. -/
def joinComma (l : List PyStr) : PyStr :=
  match l with
  | [] => []
  | [s] => s
  | s :: rest => s ++ ", ".toList ++ joinComma rest

/-- The numbered device lines of the comparison / top-consumers answers:
`f"{i}. {name} ({type}): {avg:.1f} watts\n"`. -/
def topLines (env : Env) (i : Nat) : List TopConsumerEntry → PyStr
  | [] => []
  | e :: rest =>
      intToPyStr i ++ ". ".toList ++ e.name ++ " (".toList ++ e.type ++
      "): ".toList ++ env.fmt1 e.average_power_watts ++ " watts\n".toList ++
      topLines env (i + 1) rest

/-- The answer text of `handle_energy_summary_query`. -/
def summaryAnswerText (env : Env) (tp : Option PyStr)
    (avg mx mn : ℚ) (cnt : Int) : PyStr :=
  "Energy summary (".toList ++ showTimePeriod tp ++ "):\n".toList ++
  "• Average power: ".toList ++ env.fmt1 avg ++ " watts\n".toList ++
  "• Peak power: ".toList ++ env.fmt1 mx ++ " watts\n".toList ++
  "• Minimum power: ".toList ++ env.fmt1 mn ++ " watts\n".toList ++
  "• Total readings: ".toList ++ intToPyStr cnt

/-- Result type of a handler: the answer text and the optional `data`
payload; `.error ()` models an exception escaping to the
`try/except` of `generate_response`. -/
abbrev HandlerResult := Except Unit (PyStr × Option PyVal)

/-- Projection of a top-consumers entry to its `data` dict. -/
def topEntryVal (e : TopConsumerEntry) : PyVal :=
  .dict [("device_id".toList, .str e.device_id),
         ("name".toList, .str e.name),
         ("type".toList, .str e.type),
         ("average_power_watts".toList, .num e.average_power_watts)]

/-- Embeds `handle_energy_usage_query`. -/
def handle_energy_usage_query (env : Env) (db : DB) (user_id : Nat)
    (pq : ParsedQuery) : HandlerResult :=
  let device_name := pyGet pq.device_name none
  let time_period := pyGet pq.time_period (some "today".toList)
  let w := get_time_range env.now time_period
  let devices := get_user_devices db user_id
  if (match device_name with
      | some dn => !dn.isEmpty
      | none => false) then
    let dn := device_name.getD []
    match devices.find? (fun d => pyLower d.name == pyLower dn) with
    | none =>
        .ok ("I couldn\x27t find a device named \x27".toList ++ dn ++
             "\x27. Here are your devices: ".toList ++
             joinComma (devices.map (·.name)), none)
    | some target =>
        match get_telemetry_by_device db target.device_id user_id w.1 w.2 100 with
        | .error _ => .error ()
        | .ok td =>
            if td.isEmpty then
              .ok ("No energy data found for ".toList ++ dn ++
                   " in the specified time period.".toList, none)
            else
              let avg := sqlAvg td
              let mx := sqlMax td
              .ok ("Energy usage for ".toList ++ dn ++ " (".toList ++
                   showTimePeriod time_period ++ "):\n".toList ++
                   "• Average power: ".toList ++ env.fmt1 avg ++ " watts\n".toList ++
                   "• Peak power: ".toList ++ env.fmt1 mx ++ " watts\n".toList ++
                   "• Total readings: ".toList ++ intToPyStr td.length,
                some (.dict [("device_name".toList, .str dn),
                             ("average_power".toList, .num avg),
                             ("max_power".toList, .num mx),
                             ("readings_count".toList, .int td.length)]))
  else
    match get_energy_summary db user_id none w.1 w.2 with
    | .error _ => .error ()
    | .ok summary =>
        match dictGet summary "average_power_watts".toList,
              dictGet summary "max_power_watts".toList,
              dictGet summary "reading_count".toList with
        | some (.num avg), some (.num mx), some (.int cnt) =>
            .ok ("Energy summary for all devices (".toList ++
                 showTimePeriod time_period ++ "):\n".toList ++
                 "• Average power: ".toList ++ env.fmt1 avg ++ " watts\n".toList ++
                 "• Peak power: ".toList ++ env.fmt1 mx ++ " watts\n".toList ++
                 "• Total readings: ".toList ++ intToPyStr cnt,
              some (.dict summary))
        | _, _, _ => .error ()

/-- Embeds `handle_device_comparison_query` (the parameter record is
received but never read; the limit is the literal `5`; no time window is
passed to the aggregation). -/
def handle_device_comparison_query (env : Env) (db : DB) (user_id : Nat)
    (_pq : ParsedQuery) : HandlerResult :=
  let tc := get_top_consuming_devices db user_id (some 5) none none
  if tc.isEmpty then
    .ok ("No energy data available for device comparison.".toList, none)
  else
    .ok ("Top energy consuming devices:\n".toList ++ topLines env 1 tc,
      some (.dict [("top_consumers".toList, .list (tc.map topEntryVal))]))

/-- Embeds `handle_top_consumers_query` (only the `limit` field of the
parameter record is read; no time window is passed to the aggregation). -/
def handle_top_consumers_query (env : Env) (db : DB) (user_id : Nat)
    (pq : ParsedQuery) : HandlerResult :=
  let limit := pyGet pq.limit (some 5)
  let tc := get_top_consuming_devices db user_id limit none none
  if tc.isEmpty then
    .ok ("No energy data available.".toList, none)
  else
    .ok ("Top ".toList ++ intToPyStr tc.length ++
         " energy consuming devices:\n".toList ++ topLines env 1 tc,
      some (.dict [("top_consumers".toList, .list (tc.map topEntryVal))]))

/-- Embeds `handle_energy_summary_query`: resolve the window from the
`time_period` field (default `"today"`), aggregate over all of the
user's devices, and read the four statistic keys of the summary dict
(a missing key is a `KeyError`, i.e. `.error ()`). -/
def handle_energy_summary_query (env : Env) (db : DB) (user_id : Nat)
    (pq : ParsedQuery) : HandlerResult :=
  let time_period := pyGet pq.time_period (some "today".toList)
  let w := get_time_range env.now time_period
  match get_energy_summary db user_id none w.1 w.2 with
  | .error _ => .error ()
  | .ok summary =>
      match dictGet summary "average_power_watts".toList,
            dictGet summary "max_power_watts".toList,
            dictGet summary "min_power_watts".toList,
            dictGet summary "reading_count".toList with
      | some (.num avg), some (.num mx), some (.num mn), some (.int cnt) =>
          .ok (summaryAnswerText env time_period avg mx mn cnt,
            some (.dict summary))
      | _, _, _, _ => .error ()

/-- The numbered lines of the device-list answer:
`f"{i}. {name} ({type}) - {status}\n"`. -/
def deviceLines (i : Nat) : List Device → PyStr
  | [] => []
  | d :: rest =>
      intToPyStr i ++ ". ".toList ++ d.name ++ " (".toList ++
      d.device_type ++ ") - ".toList ++
      (if d.is_active then "Active".toList else "Inactive".toList) ++
      "\n".toList ++ deviceLines (i + 1) rest

/-- Embeds `handle_device_list_query`. -/
def handle_device_list_query (db : DB) (user_id : Nat) : HandlerResult :=
  let devices := get_user_devices db user_id
  if devices.isEmpty then
    .ok ("You don\x27t have any devices registered yet.".toList, none)
  else
    .ok ("Your registered devices:\n".toList ++ deviceLines 1 devices,
      some (.dict [("devices".toList, .list (devices.map (fun d =>
        .dict [("name".toList, .str d.name),
               ("type".toList, .str d.device_type),
               ("active".toList, .bool d.is_active)])))]))

/-- Embeds `generate_response`: small-talk intents short-circuit to the
fixed templates; otherwise the per-intent handler runs under the
`try/except` that converts any exception into the generic error answer.
The final `else` branch (`generate_fallback_response`) is unreachable for
the nine intents but is kept, as in the source. -/
def generate_response (env : Env) (db : DB) (user_id : Nat)
    (intent : QueryIntent) (pq : ParsedQuery) : PyStr × Option PyVal :=
  if intent ∈ smallTalkSet then
    (generate_small_talk_response intent, none)
  else
    match
      (match intent with
       | .ENERGY_USAGE => handle_energy_usage_query env db user_id pq
       | .DEVICE_COMPARISON => handle_device_comparison_query env db user_id pq
       | .TOP_CONSUMERS => handle_top_consumers_query env db user_id pq
       | .ENERGY_SUMMARY => handle_energy_summary_query env db user_id pq
       | .DEVICE_LIST => handle_device_list_query db user_id
       | _ => .ok (fallbackText, none)) with
    | .ok r => r
    | .error _ => (errorText, none)

/-- The response record of `ChatService.process_query`. -/
structure ChatOutput where
  chat_id : PyStr
  answer : PyStr
  data : Option PyVal

/-- Embeds `ChatService.process_query` composed with the compiled graph:
generate a chat id when the supplied one is falsy (`None` or empty),
classify, extract parameters only for analytical intents (the graph
routes small talk straight to response generation and `parse_query_node`
is a no-op for `DEVICE_LIST`), then generate the answer. -/
def process_query (env : Env) (db : DB) (user_id : Nat)
    (chat_id : Option PyStr) : ChatOutput :=
  let cid := match chat_id with
    | some c => if c.isEmpty then env.freshChatId else c
    | none => env.freshChatId
  let intent := classify_intent env.classifierResp
  let pq := if intent ∈ energyIntentSet then
      parse_energy_query env.jsonLoads env.extractorResp
    else {}
  let r := generate_response env db user_id intent pq
  ⟨cid, r.1, r.2⟩

/-- The Python name of each member of the `QueryIntent` enum. -/
def intentName (i : QueryIntent) : PyStr :=
  match i with
  | .ENERGY_USAGE => "ENERGY_USAGE".toList
  | .DEVICE_COMPARISON => "DEVICE_COMPARISON".toList
  | .TOP_CONSUMERS => "TOP_CONSUMERS".toList
  | .ENERGY_SUMMARY => "ENERGY_SUMMARY".toList
  | .DEVICE_LIST => "DEVICE_LIST".toList
  | .GREETING => "GREETING".toList
  | .THANKS => "THANKS".toList
  | .GOODBYE => "GOODBYE".toList
  | .OFF_TOPIC => "OFF_TOPIC".toList

/-- A minimal collaborator environment for concrete runs: both NLM calls
raise, `json.loads` fails, and float formatting yields the empty string. -/
def envSimple : Env :=
  ⟨none, none, fun _ => none, "c".toList, 0, fun _ => []⟩

/-- Environment whose call instant is the exact UTC midnight `86400`
(one day after the epoch). -/
def envStale : Env :=
  ⟨none, none, fun _ => none, "c".toList, 86400, fun _ => []⟩

/-- Environment whose classifier call returns `ENERGY_SUMMARY`. -/
def envSummary : Env :=
  ⟨some "ENERGY_SUMMARY".toList, none, fun _ => none, "c".toList, 0, fun _ => []⟩

/-- A store with one device of user 1 whose only reading (100 W) lies
before the UTC day starting at instant 86400. -/
def dbStale : DB :=
  ⟨[⟨1, "d1".toList, "Heater".toList, "heater".toList, 1, true⟩],
   [⟨1, 1, 0, 100⟩]⟩

/-- A store in which user 1 owns eleven devices, each with one reading. -/
def dbEleven : DB :=
  ⟨(List.range 11).map (fun i =>
      ⟨i + 1, intToPyStr (i + 1), intToPyStr (i + 1), "t".toList, 1, true⟩),
   (List.range 11).map (fun i => ⟨i + 1, i + 1, 0, 1⟩)⟩

/-- A store with two users owning devices with the same display name. -/
def dbOwned : DB :=
  ⟨[⟨1, "d1".toList, "Fridge".toList, "fridge".toList, 1, true⟩,
    ⟨2, "d2".toList, "Fridge".toList, "fridge".toList, 2, true⟩],
   [⟨1, 1, 0, 100⟩, ⟨2, 2, 0, 200⟩]⟩

/-- Parameter record extracted from a query requesting 50 results. -/
def pqFifty : ParsedQuery := { limit := .val 50 }

theorem append_left_ne_nil {a b : PyStr} (h : a ≠ []) : a ++ b ≠ [] := by
  cases a with
  | nil => exact absurd rfl h
  | cons x xs => simp

theorem insertDescBy_perm {α : Type} (key : α → ℚ) (a : α) (l : List α) :
    List.Perm (insertDescBy key a l) (a :: l) := by
  induction l with
  | nil => simp [insertDescBy]
  | cons b t ih =>
    by_cases hba : key b ≤ key a
    · simp [insertDescBy, hba]
    · simp only [insertDescBy, if_neg hba]
      exact (List.Perm.cons b ih).trans (List.Perm.swap a b t)

theorem sortDescBy_perm {α : Type} (key : α → ℚ) (l : List α) :
    List.Perm (sortDescBy key l) l := by
  induction l with
  | nil => simp [sortDescBy]
  | cons a t ih =>
    exact ((insertDescBy_perm key a (sortDescBy key t)).trans
      (List.Perm.cons a ih))

theorem mem_sortDescBy {α : Type} {key : α → ℚ} {x : α} {l : List α} :
    x ∈ sortDescBy key l ↔ x ∈ l :=
  (sortDescBy_perm key l).mem_iff

theorem length_sortDescBy {α : Type} (key : α → ℚ) (l : List α) :
    (sortDescBy key l).length = l.length :=
  (sortDescBy_perm key l).length_eq

theorem mem_insertDescBy {α : Type} {key : α → ℚ} {x a : α} {l : List α} :
    x ∈ insertDescBy key a l ↔ x = a ∨ x ∈ l := by
  rw [(insertDescBy_perm key a l).mem_iff, List.mem_cons]

theorem pairwise_insertDescBy {α : Type} (key : α → ℚ) (a : α) (l : List α)
    (h : List.Pairwise (fun x y => key y ≤ key x) l) :
    List.Pairwise (fun x y => key y ≤ key x) (insertDescBy key a l) := by
  induction l with
  | nil => simp [insertDescBy]
  | cons b t ih =>
    rcases List.pairwise_cons.mp h with ⟨hb, ht⟩
    by_cases hba : key b ≤ key a
    · simp only [insertDescBy, if_pos hba]
      refine List.pairwise_cons.mpr ⟨?_, List.pairwise_cons.mpr ⟨hb, ht⟩⟩
      intro y hy
      rcases List.mem_cons.mp hy with rfl | hy
      · exact hba
      · exact le_trans (hb y hy) hba
    · simp only [insertDescBy, if_neg hba]
      refine List.pairwise_cons.mpr ⟨?_, ih ht⟩
      intro y hy
      rcases mem_insertDescBy.mp hy with rfl | hy
      · exact le_of_lt (lt_of_not_le hba)
      · exact hb y hy

theorem pairwise_sortDescBy {α : Type} (key : α → ℚ) (l : List α) :
    List.Pairwise (fun x y => key y ≤ key x) (sortDescBy key l) := by
  induction l with
  | nil => simp [sortDescBy]
  | cons a t ih => exact pairwise_insertDescBy key a (sortDescBy key t) ih

theorem filter_insertDescBy {α : Type} (key : α → ℚ) (a : α) (l : List α)
    (v : ℚ) :
    (insertDescBy key a l).filter (fun x => decide (key x = v)) =
      if key a = v then a :: l.filter (fun x => decide (key x = v))
      else l.filter (fun x => decide (key x = v)) := by
  induction l with
  | nil =>
    by_cases hav : key a = v
    · simp [insertDescBy, List.filter_cons, hav]
    · simp [insertDescBy, List.filter_cons, hav]
  | cons b t ih =>
    by_cases hba : key b ≤ key a
    · rw [insertDescBy, if_pos hba]
      by_cases hav : key a = v
      · simp [List.filter_cons, hav]
      · simp [List.filter_cons, hav]
    · rw [insertDescBy, if_neg hba]
      rw [List.filter_cons]
      simp only [ih]
      by_cases hbv : key b = v
      · have hav : ¬ key a = v := by
          intro hv
          exact absurd (le_of_eq (hbv.trans hv.symm)) hba
        simp [List.filter_cons, hbv, hav]
      · by_cases hav : key a = v
        · simp [List.filter_cons, hbv, hav]
        · simp [List.filter_cons, hbv, hav]

theorem filter_sortDescBy {α : Type} (key : α → ℚ) (l : List α) (v : ℚ) :
    (sortDescBy key l).filter (fun x => decide (key x = v)) =
      l.filter (fun x => decide (key x = v)) := by
  induction l with
  | nil => simp [sortDescBy]
  | cons a t ih =>
    rw [sortDescBy, filter_insertDescBy, ih, List.filter_cons]
    by_cases hav : key a = v
    · simp [hav]
    · simp [hav]

theorem pyLimit_sublist {α : Type} (n : Option Int) (l : List α) :
    List.Sublist (pyLimit n l) l := by
  cases n with
  | none => exact List.Sublist.refl l
  | some k =>
      simp only [pyLimit]
      by_cases hk : k < 0
      · simp [hk]
      · simp only [if_neg hk]
        exact List.take_sublist k.toNat l

theorem length_pyLimit_some {α : Type} (n : Int) (l : List α) :
    (pyLimit (some n) l).length ≤ max n.toNat l.length := by
  simp only [pyLimit]
  by_cases hk : n < 0
  · simp [hk, le_max_right]
  · simp only [if_neg hk, List.length_take]
    exact le_max_of_le_left (min_le_left _ _)

theorem length_pyLimit_nonneg {α : Type} (n : Int) (l : List α)
    (hn : 0 ≤ n) : (pyLimit (some n) l).length = min n.toNat l.length := by
  simp [pyLimit, not_lt.mpr hn, List.length_take]

theorem mem_get_user_devices {db : DB} {uid : Nat} {d : Device} :
    d ∈ get_user_devices db uid ↔ d ∈ db.devices ∧ d.user_id = uid := by
  simp [get_user_devices]

theorem mem_deviceGroups {db : DB} {uid : Nat} {s e : Option ℚ}
    {p : Device × List Telemetry} (hp : p ∈ deviceGroups db uid s e) :
    p.1 ∈ db.devices ∧ p.1.user_id = uid ∧
      ∀ t ∈ p.2, t ∈ db.telemetry ∧ t.device_id = p.1.id ∧
        inWindow s e t = true := by
  rcases List.mem_filter.mp hp with ⟨hmem, _⟩
  rcases List.mem_map.mp hmem with ⟨d, hd, hdp⟩
  rcases mem_get_user_devices.mp hd with ⟨hdev, huid⟩
  subst hdp
  refine ⟨hdev, huid, ?_⟩
  intro t ht
  rcases List.mem_filter.mp ht with ⟨htel, hcond⟩
  simp only [Bool.and_eq_true] at hcond
  exact ⟨htel, eq_of_beq hcond.1, hcond.2⟩

theorem length_rankedGroups (db : DB) (uid : Nat) (s e : Option ℚ) :
    (rankedGroups db uid s e).length = (deviceGroups db uid s e).length :=
  length_sortDescBy _ _

theorem length_get_top_consuming (db : DB) (uid : Nat) (n : Int)
    (hn : 0 ≤ n) (s e : Option ℚ) :
    (get_top_consuming_devices db uid (some n) s e).length =
      min n.toNat (deviceGroups db uid s e).length := by
  rw [get_top_consuming_devices, List.length_map, length_pyLimit_nonneg _ _ hn,
    length_rankedGroups]

/-- C2: every aggregation operation is scoped to the requesting user.
For every store and requesting user: (i) readings returned by the
per-device telemetry fetch belong to a device of the requesting user;
(ii) readings aggregated by the all-devices energy summary belong to a
device of the requesting user; (iii) every entry of the top-consumers
ranking is the projection of a device owned by the requesting user;
(iv) the case-insensitive name lookup used by the energy-usage handler
only ever resolves to a device owned by the requesting user, so a name
collision across users cannot leak another user's device. -/
theorem C2_owner_scoped_aggregation : ∀ (db : DB) (uid : Nat),
    (∀ did s e lim l, get_telemetry_by_device db did uid s e lim = .ok l →
      ∀ t ∈ l, ∃ d, d ∈ db.devices ∧ d.user_id = uid ∧ t.device_id = d.id) ∧
    (∀ s e, ∀ t ∈ energy_summary_readings db uid s e,
      ∃ d, d ∈ db.devices ∧ d.user_id = uid ∧ t.device_id = d.id) ∧
    (∀ lim s e, ∀ en ∈ get_top_consuming_devices db uid lim s e,
      ∃ d, d ∈ db.devices ∧ d.user_id = uid ∧ en.device_id = d.device_id ∧
        en.name = d.name ∧ en.type = d.device_type) ∧
    (∀ dn d, (get_user_devices db uid).find?
        (fun x => pyLower x.name == pyLower dn) = some d →
      d ∈ db.devices ∧ d.user_id = uid) := by
  intro db uid
  refine ⟨?_, ?_, ?_, ?_⟩
  · intro did s e lim l hok t ht
    rw [get_telemetry_by_device] at hok
    cases hfind : db.devices.find? (fun d =>
        d.device_id == did && d.user_id == uid) with
    | none => rw [hfind] at hok; exact absurd hok (by simp)
    | some device =>
      rw [hfind] at hok
      have hdev : device ∈ db.devices := List.mem_of_find?_eq_some hfind
      have hpred := List.find?_some hfind
      simp only [Bool.and_eq_true] at hpred
      have huid2 : device.user_id = uid := eq_of_beq hpred.2
      have hl : l = (sortDescBy (·.timestamp)
          (db.telemetry.filter (fun t =>
            t.device_id == device.id && inWindow s e t))).take lim := by
        exact (Except.ok.injEq _ _).mp hok.symm
      rw [hl] at ht
      have ht2 := (List.take_sublist _ _).subset ht
      have ht3 := mem_sortDescBy.mp ht2
      rcases List.mem_filter.mp ht3 with ⟨_, hcond⟩
      simp only [Bool.and_eq_true] at hcond
      exact ⟨device, hdev, huid2, eq_of_beq hcond.1⟩
  · intro s e t ht
    rcases List.mem_filter.mp ht with ⟨_, hcond⟩
    simp only [Bool.and_eq_true] at hcond
    have hmem : t.device_id ∈ (get_user_devices db uid).map (·.id) := by
      simpa using hcond.1
    rcases List.mem_map.mp hmem with ⟨d, hd, hdi⟩
    rcases mem_get_user_devices.mp hd with ⟨hdev, huid⟩
    exact ⟨d, hdev, huid, hdi.symm⟩
  · intro lim s e en hen
    rcases List.mem_map.mp hen with ⟨p, hp, hpe⟩
    have hp2 := (pyLimit_sublist lim _).subset hp
    have hp3 := mem_sortDescBy.mp hp2
    rcases mem_deviceGroups hp3 with ⟨hdev, huid, _⟩
    subst hpe
    exact ⟨p.1, hdev, huid, rfl, rfl, rfl⟩
  · intro dn d hfind
    exact mem_get_user_devices.mp (List.mem_of_find?_eq_some hfind)

/-- C2 witness: on a store where two users own same-named devices, the
per-device fetch for user 1 only returns readings of user 1's device. -/
theorem C2_owner_scoped_aggregation_witness :
    get_telemetry_by_device dbOwned "d1".toList 1 none none 100 =
      .ok [⟨1, 1, 0, 100⟩] ∧
    ∀ t ∈ [(⟨1, 1, 0, 100⟩ : Telemetry)],
      ∃ d, d ∈ dbOwned.devices ∧ d.user_id = 1 ∧ t.device_id = d.id := by
  refine ⟨rfl, ?_⟩
  exact (C2_owner_scoped_aggregation dbOwned 1).1 "d1".toList none none 100
    [⟨1, 1, 0, 100⟩] rfl

/-- C3 counterexample: the code applies no cap of 10.  On a store where
user 1 owns eleven devices with readings, a `TOP_CONSUMERS` query whose
extracted limit is 50 returns eleven entries, more than the ten the claim
allows. -/
theorem C3_ranking_counterexample :
    10 < (get_top_consuming_devices dbEleven 1
        (pyGet pqFifty.limit (some 5)) none none).length := by
  have h : pyGet pqFifty.limit (some 5) = some 50 := rfl
  rw [h, length_get_top_consuming dbEleven 1 50 (by norm_num) none none]
  have h11 : (deviceGroups dbEleven 1 none none).length = 11 := by decide
  rw [h11]
  norm_num

/-- C3 amended: the ranking returned for a `TOP_CONSUMERS` query is
sorted descending by per-device average power, ties follow device
creation order (the tied entries form a sublist of the creation-ordered
per-device groups), and its length is at most the extracted limit
(default 5 when the field is absent) — there is no cap of 10. -/
theorem C3_ranking_amended : ∀ (db : DB) (uid : Nat) (pq : ParsedQuery),
    List.Pairwise (fun a b => b.average_power_watts ≤ a.average_power_watts)
      (get_top_consuming_devices db uid (pyGet pq.limit (some 5)) none none) ∧
    (pq.limit = .absent →
      (get_top_consuming_devices db uid (pyGet pq.limit (some 5))
        none none).length ≤ 5) ∧
    (∀ n : Int, pq.limit = .val n → 0 ≤ n →
      ((get_top_consuming_devices db uid (pyGet pq.limit (some 5))
        none none).length : Int) ≤ n) ∧
    (∀ v : ℚ,
      List.Sublist
        ((get_top_consuming_devices db uid (pyGet pq.limit (some 5))
            none none).filter
          (fun en => decide (en.average_power_watts = v)))
        (((deviceGroups db uid none none).map (fun p =>
            TopConsumerEntry.mk p.1.device_id p.1.name p.1.device_type
              (sqlAvg p.2))).filter
          (fun en => decide (en.average_power_watts = v)))) := by
  intro db uid pq
  refine ⟨?_, ?_, ?_, ?_⟩
  · rw [get_top_consuming_devices]
    have h1 := pairwise_sortDescBy (fun p => sqlAvg p.2)
      (deviceGroups db uid none none)
    have h2 := List.Pairwise.sublist
      (pyLimit_sublist (pyGet pq.limit (some 5))
        (rankedGroups db uid none none)) h1
    exact List.Pairwise.map _ (fun a b h => h) h2
  · intro habs
    rw [habs]
    have h : pyGet (JsonField.absent : JsonField Int) (some 5) = some 5 := rfl
    rw [h, length_get_top_consuming db uid 5 (by norm_num) none none]
    exact le_trans (min_le_left _ _) (by norm_num)
  · intro n hval hn
    rw [hval]
    have h : pyGet (JsonField.val n) (some 5) = some n := rfl
    rw [h]
    have h1 : (get_top_consuming_devices db uid (some n) none none).length
        ≤ n.toNat := by
      rw [length_get_top_consuming db uid n hn none none]
      exact min_le_left _ _
    have h2 : ((get_top_consuming_devices db uid (some n) none none).length
        : Int) ≤ (n.toNat : Int) := Int.ofNat_le.mpr h1
    rwa [Int.toNat_of_nonneg hn] at h2
  · intro v
    rw [get_top_consuming_devices, List.filter_map, List.filter_map]
    refine List.Sublist.map _ ?_
    have hpred : ((fun en : TopConsumerEntry =>
          decide (en.average_power_watts = v)) ∘
        (fun p : Device × List Telemetry =>
          TopConsumerEntry.mk p.1.device_id p.1.name p.1.device_type
            (sqlAvg p.2))) =
        (fun p : Device × List Telemetry => decide (sqlAvg p.2 = v)) := rfl
    rw [hpred, rankedGroups,
      ← filter_sortDescBy (fun p => sqlAvg p.2) (deviceGroups db uid none none) v]
    exact List.Sublist.filter _ (pyLimit_sublist _ _)

/-- C3 witness: on the eleven-device store with an extracted limit of 50,
the theorem bounds the ranking length by 50. -/
theorem C3_ranking_amended_witness :
    pqFifty.limit = .val 50 ∧ ((0 : Int) ≤ 50) ∧
    ((get_top_consuming_devices dbEleven 1 (pyGet pqFifty.limit (some 5))
      none none).length : Int) ≤ 50 :=
  ⟨rfl, by norm_num,
   (C3_ranking_amended dbEleven 1 pqFifty).2.2.1 50 rfl (by norm_num)⟩

theorem midnightOf_sub_day (t : ℚ) :
    midnightOf (t - 86400) = midnightOf t - 86400 := by
  unfold midnightOf
  have h : (t - 86400) / 86400 = t / 86400 - 1 := by ring
  rw [h]
  have h2 : ⌊t / 86400 - 1⌋ = ⌊t / 86400⌋ - 1 := by
    exact_mod_cast Int.floor_sub_int (t / 86400) 1
  rw [h2]
  push_cast
  ring

/-- C4: at every call instant, the resolved `yesterday` window runs from
the previous day's UTC midnight to that midnight plus 23:59:59; its
length is exactly 24 hours minus one second and its end is strictly
before the start of the `today` window resolved at the same instant. -/
theorem C4_yesterday_window : ∀ now : ℚ,
    get_time_range now (some "yesterday".toList) =
      (some (midnightOf (now - 86400)),
       some (midnightOf (now - 86400) + 86399)) ∧
    (get_time_range now (some "today".toList)).1 = some (midnightOf now) ∧
    midnightOf (now - 86400) = midnightOf now - 86400 ∧
    (midnightOf (now - 86400) + 86399) - midnightOf (now - 86400) =
      (86399 : ℚ) ∧
    midnightOf (now - 86400) + 86399 < midnightOf now := by
  intro now
  refine ⟨?_, ?_, midnightOf_sub_day now, by ring, ?_⟩
  · unfold get_time_range
    rw [if_neg (by decide), if_pos rfl]
  · unfold get_time_range
    rw [if_pos rfl]
  · rw [midnightOf_sub_day]
    linarith

theorem intentOfName_intentName (i : QueryIntent) :
    intentOfName (intentName i) = some i := by
  cases i <;> rfl

theorem intentOfName_eq_some {s : PyStr} {i : QueryIntent}
    (h : intentOfName s = some i) : s = intentName i := by
  unfold intentOfName at h
  split_ifs at h
  all_goals (injection h with h2; subst h2; simp_all [intentName])

/-- C5: `classify_intent` never raises.  An exception from the NLM call
(`none`) resolves to `OFF_TOPIC`; the response is normalised (stripped,
uppercased, spaces replaced by underscores) and matched against the
closed intent set: a normalised value matching no intent name yields
`OFF_TOPIC`, and one matching an intent name yields that intent. -/
theorem C5_classify_intent_total :
    classify_intent none = QueryIntent.OFF_TOPIC ∧
    (∀ s : PyStr,
      (∀ i : QueryIntent, normalizeIntentResponse s ≠ intentName i) →
      classify_intent (some s) = QueryIntent.OFF_TOPIC) ∧
    (∀ s : PyStr, ∀ i : QueryIntent,
      normalizeIntentResponse s = intentName i →
      classify_intent (some s) = i) := by
  refine ⟨rfl, ?_, ?_⟩
  · intro s hne
    cases hio : intentOfName (normalizeIntentResponse s) with
    | none => simp [classify_intent, hio]
    | some i => exact absurd (intentOfName_eq_some hio) (hne i)
  · intro s i h
    have hio : intentOfName (normalizeIntentResponse s) = some i := by
      rw [h]
      exact intentOfName_intentName i
    simp [classify_intent, hio]

/-- C5 witness: the raw response `" energy usage "` normalises to
`ENERGY_USAGE` and is classified as that intent. -/
theorem C5_classify_intent_total_witness :
    normalizeIntentResponse " energy usage ".toList =
      intentName QueryIntent.ENERGY_USAGE ∧
    classify_intent (some " energy usage ".toList) =
      QueryIntent.ENERGY_USAGE :=
  ⟨by decide, C5_classify_intent_total.2.2 _ _ (by decide)⟩

theorem isPrefixOf_append_self (l r : List Char) :
    l.isPrefixOf (l ++ r) = true := by
  induction l with
  | nil => simp [List.isPrefixOf]
  | cons a t ih => simp [List.cons_append, List.isPrefixOf, ih]

theorem stripFences_fenced (s : PyStr) :
    stripFences (fenceOpen ++ s ++ fenceClose) = pyStrip s := by
  have hb : isPySpace '\x60' = false := by decide
  have hopen : fenceOpen = '\x60' :: "``json".toList := by decide
  have hcr : fenceClose.reverse = '\x60' :: "``".toList := by decide
  have hlo : fenceOpen.length = 7 := by decide
  have hlc : fenceClose.reverse.length = 3 := by decide
  have h1 : pyStrip (fenceOpen ++ s ++ fenceClose) =
      fenceOpen ++ s ++ fenceClose := by
    unfold pyStrip
    have hd1 : (fenceOpen ++ s ++ fenceClose).dropWhile isPySpace =
        fenceOpen ++ s ++ fenceClose := by
      rw [hopen]
      simp [List.cons_append, List.dropWhile_cons, hb]
    have hd2 : (fenceOpen ++ s ++ fenceClose).reverse.dropWhile isPySpace =
        (fenceOpen ++ s ++ fenceClose).reverse := by
      rw [List.reverse_append, hcr]
      simp [List.cons_append, List.dropWhile_cons, hb]
    rw [hd1, hd2, List.reverse_reverse]
  unfold stripFences
  rw [h1, List.append_assoc]
  dsimp only
  rw [if_pos (isPrefixOf_append_self fenceOpen (s ++ fenceClose))]
  rw [← hlo, List.drop_left]
  have hend : pyEndsWith fenceClose (s ++ fenceClose) = true := by
    unfold pyEndsWith
    rw [List.reverse_append]
    exact isPrefixOf_append_self _ _
  rw [if_pos hend]
  have hdr : pyDropRight (s ++ fenceClose) 3 = s := by
    unfold pyDropRight
    rw [List.reverse_append, ← hlc, List.drop_left, List.reverse_reverse]
  rw [hdr]

/-- C6: `parse_energy_query` never raises.  An exception from the NLM
call (`none`) yields the empty parameter record, as do an empty
post-surgery response and a `json.loads` failure; a successful decode is
returned as-is; and a response wrapped in a leading ```json fence and a
trailing ``` fence parses exactly like its stripped fence-free body. -/
theorem C6_parse_energy_query_total : ∀ j : PyStr → Option ParsedQuery,
    parse_energy_query j none = {} ∧
    (∀ raw : PyStr, stripFences raw = [] →
      parse_energy_query j (some raw) = {}) ∧
    (∀ raw : PyStr, j (stripFences raw) = none →
      parse_energy_query j (some raw) = {}) ∧
    (∀ raw : PyStr, ∀ p : ParsedQuery, stripFences raw ≠ [] →
      j (stripFences raw) = some p →
      parse_energy_query j (some raw) = p) ∧
    (∀ s : PyStr, stripFences (fenceOpen ++ s ++ fenceClose) = pyStrip s) := by
  intro j
  refine ⟨rfl, ?_, ?_, ?_, stripFences_fenced⟩
  · intro raw h
    simp [parse_energy_query, h]
  · intro raw h
    by_cases hc : stripFences raw = []
    · simp [parse_energy_query, hc]
    · simp [parse_energy_query, hc, h]
  · intro raw p hne hj
    simp [parse_energy_query, hne, hj]

/-- C6 witness: a fenced response whose body decodes to nothing yields
the empty parameter record. -/
theorem C6_parse_energy_query_total_witness :
    parse_energy_query (fun _ => none) (some "```json \x7b\x7d ```".toList) =
      ({} : ParsedQuery) :=
  (C6_parse_energy_query_total (fun _ => none)).2.2.1
    "```json \x7b\x7d ```".toList rfl

theorem usage_ok_ne_nil (env : Env) (db : DB) (uid : Nat) (pq : ParsedQuery)
    {r : PyStr × Option PyVal}
    (h : handle_energy_usage_query env db uid pq = .ok r) : r.1 ≠ [] := by
  unfold handle_energy_usage_query at h
  dsimp only at h
  repeat' split at h
  all_goals first
    | exact Except.noConfusion h
    | (injection h with hpair; subst hpair;
       repeat apply append_left_ne_nil
       decide)

theorem comparison_ok_ne_nil (env : Env) (db : DB) (uid : Nat)
    (pq : ParsedQuery) {r : PyStr × Option PyVal}
    (h : handle_device_comparison_query env db uid pq = .ok r) : r.1 ≠ [] := by
  unfold handle_device_comparison_query at h
  dsimp only at h
  repeat' split at h
  all_goals first
    | exact Except.noConfusion h
    | (injection h with hpair; subst hpair;
       repeat apply append_left_ne_nil
       decide)

theorem top_ok_ne_nil (env : Env) (db : DB) (uid : Nat)
    (pq : ParsedQuery) {r : PyStr × Option PyVal}
    (h : handle_top_consumers_query env db uid pq = .ok r) : r.1 ≠ [] := by
  unfold handle_top_consumers_query at h
  dsimp only at h
  repeat' split at h
  all_goals first
    | exact Except.noConfusion h
    | (injection h with hpair; subst hpair;
       repeat apply append_left_ne_nil
       decide)

theorem summary_ok_ne_nil (env : Env) (db : DB) (uid : Nat)
    (pq : ParsedQuery) {r : PyStr × Option PyVal}
    (h : handle_energy_summary_query env db uid pq = .ok r) : r.1 ≠ [] := by
  unfold handle_energy_summary_query summaryAnswerText at h
  dsimp only at h
  repeat' split at h
  all_goals first
    | exact Except.noConfusion h
    | (injection h with hpair; subst hpair;
       repeat apply append_left_ne_nil
       decide)

theorem devlist_ok_ne_nil (db : DB) (uid : Nat)
    {r : PyStr × Option PyVal}
    (h : handle_device_list_query db uid = .ok r) : r.1 ≠ [] := by
  unfold handle_device_list_query at h
  dsimp only at h
  repeat' split at h
  all_goals first
    | exact Except.noConfusion h
    | (injection h with hpair; subst hpair;
       repeat apply append_left_ne_nil
       decide)

theorem generate_response_answer_ne_nil (env : Env) (db : DB) (uid : Nat)
    (intent : QueryIntent) (pq : ParsedQuery) :
    (generate_response env db uid intent pq).1 ≠ [] := by
  unfold generate_response
  split
  · cases intent <;> decide
  · split
    · rename_i r hr
      split at hr
      all_goals first
        | exact usage_ok_ne_nil _ _ _ _ hr
        | exact comparison_ok_ne_nil _ _ _ _ hr
        | exact top_ok_ne_nil _ _ _ _ hr
        | exact summary_ok_ne_nil _ _ _ _ hr
        | exact devlist_ok_ne_nil _ _ hr
        | (injection hr with hpair; subst hpair; decide)
    · decide

/-- C1: for every store, every collaborator behaviour and every intent,
`process_query` returns a record whose `chat_id` is non-empty (echoing a
non-empty supplied id, freshly generated otherwise) and whose answer is a
non-empty string.  The only assumption is that the `uuid4` fresh id is
non-empty. -/
theorem C1_process_query_wellformed : ∀ (env : Env) (db : DB) (uid : Nat)
    (cid : Option PyStr), env.freshChatId ≠ [] →
    (process_query env db uid cid).chat_id ≠ [] ∧
    (process_query env db uid cid).answer ≠ [] ∧
    (cid = none → (process_query env db uid cid).chat_id =
      env.freshChatId) ∧
    (∀ c, cid = some c → c ≠ [] →
      (process_query env db uid cid).chat_id = c) := by
  intro env db uid cid hfresh
  refine ⟨?_, ?_, ?_, ?_⟩
  · unfold process_query
    dsimp only
    cases cid with
    | none => exact hfresh
    | some c =>
      by_cases hc : c.isEmpty
      · simp only [hc, if_true]
        exact hfresh
      · simp only [hc, Bool.false_eq_true, if_false]
        simpa [List.isEmpty_iff] using hc
  · exact generate_response_answer_ne_nil env db uid _ _
  · intro h
    subst h
    rfl
  · intro c hcid hcne
    subst hcid
    unfold process_query
    dsimp only
    rw [if_neg (by simpa [List.isEmpty_iff] using hcne)]

/-- C1 witness: with an empty store, failing collaborators and no
supplied chat id, the response still has a non-empty chat id and a
non-empty answer. -/
theorem C1_process_query_wellformed_witness :
    (process_query envSimple ⟨[], []⟩ 1 none).chat_id ≠ [] ∧
    (process_query envSimple ⟨[], []⟩ 1 none).answer ≠ [] :=
  ⟨(C1_process_query_wellformed envSimple ⟨[], []⟩ 1 none (by decide)).1,
   (C1_process_query_wellformed envSimple ⟨[], []⟩ 1 none (by decide)).2.1⟩

/-- C9: when the classified intent is conversational (`GREETING`,
`THANKS`, `GOODBYE`, `OFF_TOPIC`), the graph routes straight to response
generation: the answer is the fixed template of that intent, the data
payload is null, and the output is independent of the parameter-extractor
collaborator (its raw response and its JSON decoding). -/
theorem C9_smalltalk_skips_extraction : ∀ (env : Env) (db : DB) (uid : Nat)
    (cid : Option PyStr),
    classify_intent env.classifierResp ∈ smallTalkSet →
    (process_query env db uid cid).answer =
      generate_small_talk_response (classify_intent env.classifierResp) ∧
    (process_query env db uid cid).data = none ∧
    (∀ (e2 : Option PyStr) (j2 : PyStr → Option ParsedQuery),
      process_query { env with extractorResp := e2, jsonLoads := j2 }
          db uid cid =
        process_query env db uid cid) ∧
    (classify_intent env.classifierResp = .GREETING →
      (process_query env db uid cid).answer = greetingText) ∧
    (classify_intent env.classifierResp = .THANKS →
      (process_query env db uid cid).answer = thanksText) ∧
    (classify_intent env.classifierResp = .GOODBYE →
      (process_query env db uid cid).answer = goodbyeText) ∧
    (classify_intent env.classifierResp = .OFF_TOPIC →
      (process_query env db uid cid).answer = offTopicText) := by
  intro env db uid cid h
  simp only [smallTalkSet, List.mem_cons, List.mem_singleton,
    List.not_mem_nil, or_false] at h
  rcases h with h | h | h | h <;>
    simp [process_query, generate_response, generate_small_talk_response,
      energyIntentSet, smallTalkSet, h]

/-- C9 witness: a raw classifier response `"greeting"` resolves to
`GREETING`; the pipeline returns the greeting template with null data. -/
theorem C9_smalltalk_skips_extraction_witness :
    classify_intent
        ({ envSimple with classifierResp := some "greeting".toList } :
          Env).classifierResp ∈ smallTalkSet ∧
    (process_query { envSimple with classifierResp := some "greeting".toList }
        ⟨[], []⟩ 1 none).answer = greetingText :=
  ⟨by decide,
   (C9_smalltalk_skips_extraction
      { envSimple with classifierResp := some "greeting".toList }
      ⟨[], []⟩ 1 none (by decide)).2.2.2.1 (by decide)⟩

/-- C7 counterexample: for a user owning no devices, the
`ENERGY_SUMMARY` handler does not return a valid summary on an empty
parameter record — it raises (the summary dict lacks the statistic keys)
and the pipeline substitutes the generic error answer with null data. -/
theorem C7_no_devices_counterexample :
    handle_energy_summary_query envSimple ⟨[], []⟩ 1 {} = .error () ∧
    generate_response envSimple ⟨[], []⟩ 1 .ENERGY_SUMMARY {} =
      (errorText, none) := ⟨rfl, rfl⟩

theorem get_time_range_today (now : ℚ) :
    get_time_range now (some "today".toList) =
      (some (midnightOf now), some now) := by
  unfold get_time_range
  rw [if_pos rfl]

/-- C7 amended: for every user owning at least one device, an
`ENERGY_SUMMARY` query with an empty parameter record falls back to the
default period `today` and succeeds, reporting average, peak, minimum
power and reading count over the `today` window, with a data payload
carrying exactly those fields. -/
theorem C7_summary_empty_params_default : ∀ (env : Env) (db : DB)
    (uid : Nat), (∃ d ∈ db.devices, d.user_id = uid) →
    handle_energy_summary_query env db uid {} =
      .ok (summaryAnswerText env (some "today".toList)
          (sqlAvg (energy_summary_readings db uid
            (some (midnightOf env.now)) (some env.now)))
          (sqlMax (energy_summary_readings db uid
            (some (midnightOf env.now)) (some env.now)))
          (sqlMin (energy_summary_readings db uid
            (some (midnightOf env.now)) (some env.now)))
          (energy_summary_readings db uid
            (some (midnightOf env.now)) (some env.now)).length,
        some (.dict (summaryDict (energy_summary_readings db uid
          (some (midnightOf env.now)) (some env.now)) none))) ∧
    (∀ q : List Telemetry,
      dictGet (summaryDict q none) "reading_count".toList =
          some (.int q.length) ∧
        dictGet (summaryDict q none) "average_power_watts".toList =
          some (.num (sqlAvg q)) ∧
        dictGet (summaryDict q none) "max_power_watts".toList =
          some (.num (sqlMax q)) ∧
        dictGet (summaryDict q none) "min_power_watts".toList =
          some (.num (sqlMin q))) := by
  intro env db uid hex
  have hne : (get_user_devices db uid).isEmpty = false := by
    rcases hex with ⟨d, hd, hu⟩
    have hmem : d ∈ get_user_devices db uid :=
      mem_get_user_devices.mpr ⟨hd, hu⟩
    simp [List.isEmpty_iff, List.ne_nil_of_mem hmem]
  have hsum : get_energy_summary db uid none
      (some (midnightOf env.now)) (some env.now) =
      .ok (summaryDict (energy_summary_readings db uid
        (some (midnightOf env.now)) (some env.now)) none) := by
    unfold get_energy_summary
    simp [hne]
  refine ⟨?_, fun q => ⟨rfl, rfl, rfl, rfl⟩⟩
  unfold handle_energy_summary_query
  dsimp only
  rw [show pyGet ({} : ParsedQuery).time_period (some "today".toList) =
    some "today".toList from rfl]
  rw [get_time_range_today]
  rw [hsum]
  rfl

/-- C7 witness: user 1 of the two-user store owns a device, so the
amended theorem applies there. -/
theorem C7_summary_empty_params_default_witness :
    (∃ d ∈ dbOwned.devices, d.user_id = 1) ∧
    handle_energy_summary_query envSimple dbOwned 1 {} =
      .ok (summaryAnswerText envSimple (some "today".toList)
          (sqlAvg (energy_summary_readings dbOwned 1
            (some (midnightOf envSimple.now)) (some envSimple.now)))
          (sqlMax (energy_summary_readings dbOwned 1
            (some (midnightOf envSimple.now)) (some envSimple.now)))
          (sqlMin (energy_summary_readings dbOwned 1
            (some (midnightOf envSimple.now)) (some envSimple.now)))
          (energy_summary_readings dbOwned 1
            (some (midnightOf envSimple.now)) (some envSimple.now)).length,
        some (.dict (summaryDict (energy_summary_readings dbOwned 1
          (some (midnightOf envSimple.now)) (some envSimple.now)) none))) :=
  ⟨⟨⟨1, "d1".toList, "Fridge".toList, "fridge".toList, 1, true⟩,
      by decide, rfl⟩,
   (C7_summary_empty_params_default envSimple dbOwned 1
      ⟨⟨1, "d1".toList, "Fridge".toList, "fridge".toList, 1, true⟩,
        by decide, rfl⟩).1⟩

/-- C8 counterexample: at call instant 86400 the `today` window is
`[86400, 86400]`; the store's only reading (100 W at instant 0) lies
outside it, so a window-scoped ranking would be empty — yet the
`TOP_CONSUMERS` handler's aggregation, which receives no window, returns
one entry. -/
theorem C8_window_counterexample :
    get_time_range envStale.now
      (pyGet ({} : ParsedQuery).time_period (some "today".toList)) =
      (some 86400, some 86400) ∧
    deviceGroups dbStale 1 (some 86400) (some 86400) = [] ∧
    (get_top_consuming_devices dbStale 1
      (pyGet ({} : ParsedQuery).limit (some 5)) none none).length = 1 := by
  refine ⟨?_, by decide, ?_⟩
  · have hm : midnightOf 86400 = 86400 := by
      unfold midnightOf
      have h1 : (86400 : ℚ) / 86400 = 1 := by norm_num
      rw [h1]
      norm_num
    show get_time_range (86400 : ℚ) (some "today".toList) = _
    rw [get_time_range_today, hm]
  · have h5 : pyGet ({} : ParsedQuery).limit (some 5) = some 5 := rfl
    have hlen := length_get_top_consuming dbStale 1 5 (by norm_num) none none
    have h1 : (deviceGroups dbStale 1 none none).length = 1 := by decide
    rw [h5, hlen, h1]
    decide

theorem topLines_now (env : Env) (t2 : ℚ) (i : Nat)
    (l : List TopConsumerEntry) :
    topLines { env with now := t2 } i l = topLines env i l := by
  induction l generalizing i with
  | nil => rfl
  | cons e rest ih => simp [topLines, ih]

/-- C8 amended: the `TOP_CONSUMERS` and `DEVICE_COMPARISON` handlers
never resolve a time window: their output is independent of the
extracted `time_period` field and of the call instant, and the
per-device averages are computed over all stored readings (the
aggregation is invoked with no time filter, as written in the
definitions of the two handlers). -/
theorem C8_ranking_ignores_window : ∀ (env : Env) (db : DB) (uid : Nat)
    (pq : ParsedQuery) (tp : JsonField PyStr) (t2 : ℚ),
    handle_top_consumers_query env db uid { pq with time_period := tp } =
      handle_top_consumers_query env db uid pq ∧
    handle_device_comparison_query env db uid { pq with time_period := tp } =
      handle_device_comparison_query env db uid pq ∧
    handle_top_consumers_query { env with now := t2 } db uid pq =
      handle_top_consumers_query env db uid pq ∧
    handle_device_comparison_query { env with now := t2 } db uid pq =
      handle_device_comparison_query env db uid pq := by
  intro env db uid pq tp t2
  refine ⟨rfl, rfl, ?_, ?_⟩
  · unfold handle_top_consumers_query
    simp only [topLines_now]
  · unfold handle_device_comparison_query
    simp only [topLines_now]

/-- C10: for a user owning no devices, the no-devices branch of
`get_energy_summary` returns a dict whose keys are disjoint from the
four statistic keys the handlers read, so the handler lookup fails
(`KeyError`), the failure is caught in `generate_response`, and the user
receives the generic error answer while the `{chat_id, answer, data}`
triple stays well-formed.  The same happens for an `ENERGY_USAGE` query
without a device name. -/
theorem C10_no_devices_error_path : ∀ (env : Env) (db : DB) (uid : Nat)
    (pq : ParsedQuery) (s e : Option ℚ) (cid : Option PyStr),
    get_user_devices db uid = [] →
    get_energy_summary db uid none s e = .ok noDevicesSummary ∧
    (dictGet noDevicesSummary "reading_count".toList = none ∧
     dictGet noDevicesSummary "average_power_watts".toList = none ∧
     dictGet noDevicesSummary "max_power_watts".toList = none ∧
     dictGet noDevicesSummary "min_power_watts".toList = none) ∧
    handle_energy_summary_query env db uid pq = .error () ∧
    (pyGet pq.device_name none = none →
      handle_energy_usage_query env db uid pq = .error ()) ∧
    generate_response env db uid .ENERGY_SUMMARY pq = (errorText, none) ∧
    (env.classifierResp = some "ENERGY_SUMMARY".toList →
      env.freshChatId ≠ [] →
      (process_query env db uid cid).answer = errorText ∧
      (process_query env db uid cid).data = none ∧
      (process_query env db uid cid).chat_id ≠ []) := by
  intro env db uid pq s e cid hdev
  have hsum : ∀ s2 e2 : Option ℚ,
      get_energy_summary db uid none s2 e2 = .ok noDevicesSummary := by
    intro s2 e2
    unfold get_energy_summary
    simp [hdev]
  have hhs : ∀ pq2 : ParsedQuery,
      handle_energy_summary_query env db uid pq2 = .error () := by
    intro pq2
    unfold handle_energy_summary_query
    dsimp only
    rw [hsum]
    rfl
  have hgr : ∀ pq2 : ParsedQuery,
      generate_response env db uid .ENERGY_SUMMARY pq2 =
        (errorText, none) := by
    intro pq2
    unfold generate_response
    rw [if_neg (by decide)]
    dsimp only
    rw [hhs pq2]
  refine ⟨hsum s e, ⟨rfl, rfl, rfl, rfl⟩, hhs pq, ?_, hgr pq, ?_⟩
  · intro hdn
    unfold handle_energy_usage_query
    dsimp only
    rw [hdn]
    rw [if_neg (by simp)]
    rw [hsum]
    rfl
  · intro hcl hfresh
    have hint : classify_intent env.classifierResp = .ENERGY_SUMMARY := by
      rw [hcl]
      decide
    refine ⟨?_, ?_, ?_⟩
    · unfold process_query
      dsimp only
      rw [hint, if_pos (by decide), hgr]
    · unfold process_query
      dsimp only
      rw [hint, if_pos (by decide), hgr]
    · unfold process_query
      dsimp only
      cases cid with
      | none => exact hfresh
      | some c =>
        by_cases hc : c.isEmpty
        · simp only [hc, if_true]
          exact hfresh
        · simp only [hc, Bool.false_eq_true, if_false]
          simpa [List.isEmpty_iff] using hc

/-- C10 witness: a user with an empty store asking an `ENERGY_SUMMARY`
question receives the generic error answer. -/
theorem C10_no_devices_error_path_witness :
    get_user_devices ⟨[], []⟩ 1 = [] ∧
    handle_energy_summary_query envSummary ⟨[], []⟩ 1 {} = .error () ∧
    (process_query envSummary ⟨[], []⟩ 1 none).answer = errorText :=
  ⟨rfl,
   (C10_no_devices_error_path envSummary ⟨[], []⟩ 1 {} none none none
      rfl).2.2.1,
   ((C10_no_devices_error_path envSummary ⟨[], []⟩ 1 {} none none none
      rfl).2.2.2.2.2 rfl (by decide)).1⟩

end SmartHomeEnergy
